import Mathlib

/-!
Shallow embedding of the SkillentHub web application (Flask + MySQL) for
verification of its specification. Database tables are modelled as Lean
lists of row structures; each route handler becomes a pure function from
the request inputs and the current table state to a result value (the
flash/redirect outcome) and the new table state. SQL statements are
translated clause by clause into list operations.
-/

namespace SkillentHub

/-! ## Database helper (`src/database/db.py`) -/

/-- The value `execute_query` returns to its caller: Python `None`, a single
row dict (`cursor.fetchone()`, itself possibly `None`), a list of row dicts
(`cursor.fetchall()`), or the integer `cursor.lastrowid`. -/
inductive QueryValue (Row : Type) where
  | none
  | row (r : Option Row)
  | rows (rs : List Row)
  | lastrowid (n : Nat)
  deriving Repr, DecidableEq

/-- What the MySQL driver produced for one successfully executed statement:
the data the cursor would fetch, the cursor's `lastrowid`, and the tentative
database state the statement built, which becomes visible only if the
transaction is committed. -/
structure ExecOk (Row Db : Type) where
  row : Option Row
  rows : List Row
  lastrowid : Nat
  newDb : Db

/-- Environment behaviour for one `execute_query` call:
`connectFail` models `get_db_connection()` returning `None`
(`mysql.connector.connect` raised `Error`); `execError` models
`cursor.execute` raising `Error`; `ok` is a successful execution. -/
inductive Driver (Row Db : Type) where
  | connectFail
  | execError
  | ok (o : ExecOk Row Db)

/-- Embeds `execute_query(query, params, fetch_one, fetch_all, commit)` from
`src/database/db.py`. The connection is opened with autocommit off, so a
statement's effects reach the database only through `connection.commit()`;
on `Error` the code rolls back when `commit` was requested, and otherwise
simply closes the connection without committing — in both cases the
database is unchanged. The `fetch_one` / `fetch_all` / `commit` flags are
tested in that order, exactly as the `if`/`elif` chain in the source. -/
def execute_query {Row Db : Type} (fetch_one fetch_all commit : Bool)
    (db : Db) (drv : Driver Row Db) : QueryValue Row × Db :=
  match drv with
  | .connectFail => (.none, db)
  | .execError => (.none, db)
  | .ok o =>
      if fetch_one then (.row o.row, db)
      else if fetch_all then (.rows o.rows, db)
      else if commit then (.lastrowid o.lastrowid, o.newDb)
      else (.none, db)

/-! ## Messages and unread counting (`src/chat/routes.py`, `src/dashboard/routes.py`)

The `messages` table as written by the code has columns
`(sender_id, receiver_id, message, created_at)` and no read-state column.
The specification speaks of messages a user "has received but not yet
read", so the row model carries an extra `is_read` field representing that
spec-level read state; none of the embedded queries below mention it unless
they are explicitly marked as the spec side of a refinement. -/

/-- A row of the `messages` table, extended with the read state the spec
talks about (the code's schema and INSERT never touch such a column). -/
structure MessageR where
  sender_id : Nat
  receiver_id : Nat
  is_read : Bool
  deriving Repr, DecidableEq

/-- Embeds the per-conversation "unread count" query of `chat_list`
(`src/chat/routes.py` lines 108-116):
`SELECT COUNT(*) FROM messages WHERE sender_id = partner AND receiver_id = user`.
Note the query has no read-state condition. -/
def chat_list_unread_count (msgs : List MessageR) (user_id partner_id : Nat) : Nat :=
  (msgs.filter (fun m => m.sender_id == partner_id && m.receiver_id == user_id)).length

/-- Embeds the dashboard "unread messages" badge query
(`src/dashboard/routes.py` lines 51-55):
`SELECT COUNT(*) FROM messages WHERE receiver_id = user`. -/
def dashboard_unread_messages (msgs : List MessageR) (user_id : Nat) : Nat :=
  (msgs.filter (fun m => m.receiver_id == user_id)).length

/-- Spec side of the refinement for the chat_list count: the partner's chat
messages to the current user that are unread. -/
def spec_chat_unread_count (msgs : List MessageR) (user_id partner_id : Nat) : Nat :=
  (msgs.filter (fun m =>
    m.sender_id == partner_id && m.receiver_id == user_id && !m.is_read)).length

/-- Spec side of the refinement for the dashboard badge: messages the
current user has received but not yet read. -/
def spec_dashboard_unread_count (msgs : List MessageR) (user_id : Nat) : Nat :=
  (msgs.filter (fun m => m.receiver_id == user_id && !m.is_read)).length

/-! ## Notifications (`src/notifications/utils.py`) -/

/-- A row of the `notifications` table as written by `create_notification`:
`INSERT INTO notifications (user_id, message, type, is_read, created_at)`. -/
structure Notification where
  user_id : Nat
  message : String
  ntype : String
  is_read : Bool
  deriving Repr, DecidableEq

/-- Embeds `create_notification(user_id, message, notification_type)` from
`src/notifications/utils.py`. Its body is a single committed INSERT through
`execute_query`; `dbOutcome` is what that call returns (`none` when the
database layer failed, `some lastrowid` on success). The function forwards
that value as its own result; on success the inserted row carries the given
user, message and type tag and `is_read = FALSE`. -/
def create_notification (notifs : List Notification) (user_id : Nat)
    (message : String) (notification_type : String) (dbOutcome : Option Nat) :
    Option Nat × List Notification :=
  match dbOutcome with
  | Option.none => (Option.none, notifs)
  | some rowid => (some rowid, notifs ++ [⟨user_id, message, notification_type, false⟩])

/-- How a caller's `create_notification(...)` attempt went: the database
INSERT succeeded with the given `lastrowid`, or `execute_query` failed and
returned `None`, or an exception was raised before the INSERT committed
(every call site wraps the call in `try/except Exception: pass`). -/
inductive NotifyOutcome where
  | ok (rowid : Nat)
  | failed
  | raised
  deriving Repr, DecidableEq

/-- The notifications table after a guarded `create_notification` call: the
`raised` case commits nothing, the other two run `create_notification` with
the corresponding `execute_query` outcome. -/
def run_create_notification (notifs : List Notification) (user_id : Nat)
    (message : String) (notification_type : String) (out : NotifyOutcome) :
    List Notification :=
  match out with
  | .ok rowid => (create_notification notifs user_id message notification_type (some rowid)).2
  | .failed => (create_notification notifs user_id message notification_type Option.none).2
  | .raised => notifs

/-! ## Chat (`src/chat/routes.py`) -/

/-- A row of the `users` table, reduced to the columns chat control flow
reads (`SELECT id, full_name, profile_pic FROM users WHERE id = %s` only
checks existence and renders the name/picture). -/
structure User where
  id : Nat
  full_name : String
  deriving Repr, DecidableEq

/-- A row of the `messages` table as inserted by `send_message`:
`INSERT INTO messages (sender_id, receiver_id, message, created_at)`.
`created_at` is `NOW()`, modelled as the caller-supplied clock value. -/
structure Msg where
  sender_id : Nat
  receiver_id : Nat
  message : String
  created_at : Nat
  deriving Repr, DecidableEq

/-- A row of the `connections` table:
`(id, sender_id, receiver_id, status, created_at)`; `status` is the SQL
string (`'pending'`, `'accepted'`, ...). -/
structure Connection where
  id : Nat
  sender_id : Nat
  receiver_id : Nat
  status : String
  deriving Repr, DecidableEq

/-- Embeds `is_connected(user_id, partner_id)` from `src/chat/routes.py`:
`SELECT id FROM connections WHERE status = 'accepted' AND ((sender_id = u
AND receiver_id = p) OR (sender_id = p AND receiver_id = u))` fetched with
`fetch_one`; the Python function returns whether a row came back. -/
def is_connected (conns : List Connection) (user_id partner_id : Nat) : Bool :=
  (conns.find? (fun c =>
    c.status == "accepted" &&
      ((c.sender_id == user_id && c.receiver_id == partner_id) ||
       (c.sender_id == partner_id && c.receiver_id == user_id)))).isSome

/-- The spec-level statement "an accepted connection exists between u and p
in either direction", written directly as a predicate on the table. -/
def AcceptedBetween (conns : List Connection) (u p : Nat) : Prop :=
  ∃ c ∈ conns, c.status = "accepted" ∧
    ((c.sender_id = u ∧ c.receiver_id = p) ∨ (c.sender_id = p ∧ c.receiver_id = u))

instance (conns : List Connection) (u p : Nat) :
    Decidable (AcceptedBetween conns u p) := by
  unfold AcceptedBetween; infer_instance

/-- Outcome of the `conversation` route: the three early redirects, or the
rendered page carrying the fetched message history. -/
inductive ConvResult where
  | refuseSelf
  | refuseNotConnected
  | partnerNotFound
  | page (partner : User) (msgs : List Msg)
  deriving Repr, DecidableEq

/-- Embeds `conversation(partner_id)` from `src/chat/routes.py`: refuse with
a warning when the partner is the user themselves, then when the two users
are not connected; then look the partner up; on success fetch every message
between the two users (in either direction) and render the page. The route
only reads, so it returns no new state. -/
def conversation (users : List User) (conns : List Connection) (msgs : List Msg)
    (user_id partner_id : Nat) : ConvResult :=
  if partner_id == user_id then .refuseSelf
  else if !is_connected conns user_id partner_id then .refuseNotConnected
  else
    match users.find? (fun u => u.id == partner_id) with
    | Option.none => .partnerNotFound
    | some partner =>
        .page partner (msgs.filter (fun m =>
          (m.sender_id == user_id && m.receiver_id == partner_id) ||
          (m.sender_id == partner_id && m.receiver_id == user_id)))

/-- Python `str.strip()` with no arguments: remove leading and trailing
whitespace characters. Written over the character list so that it reduces
by computation. -/
def pyStrip (s : String) : String :=
  ⟨((s.data.dropWhile Char.isWhitespace).reverse.dropWhile Char.isWhitespace).reverse⟩

/-- Outcome of the `send_message` route: the refusals (each a warning flash
plus redirect), a failed INSERT (danger flash), or success. -/
inductive SendMsgResult where
  | refuseSelf
  | refuseNotConnected
  | refuseEmpty
  | insertFailed
  | sent
  deriving Repr, DecidableEq

/-- State touched by `send_message`: the `messages` and `notifications`
tables. -/
structure ChatState where
  messages : List Msg
  notifications : List Notification
  deriving Repr, DecidableEq

/-- Embeds `send_message(partner_id)` from `src/chat/routes.py`. Checks in
source order: partner equals user, connection, message empty after
`.strip()`. Then the INSERT runs (`insertOk` tells whether `execute_query`
returned a row id); on success the receiver is notified with a
`'message'`-type notification inside `try/except` (`notify` is how that
attempt went), and a notification failure never changes the flow. -/
def send_message (conns : List Connection) (st : ChatState)
    (user_id partner_id : Nat) (raw_message : String) (now : Nat)
    (insertOk : Bool) (notify : NotifyOutcome) (sender_name : String) :
    SendMsgResult × ChatState :=
  if partner_id == user_id then (.refuseSelf, st)
  else if !is_connected conns user_id partner_id then (.refuseNotConnected, st)
  else
    let message := pyStrip raw_message
    if message == "" then (.refuseEmpty, st)
    else if insertOk then
      let newMessages := st.messages ++ [⟨user_id, partner_id, message, now⟩]
      let newNotifs := run_create_notification st.notifications partner_id
        ("New message from " ++ sender_name) "message" notify
      (.sent, ⟨newMessages, newNotifs⟩)
    else (.insertFailed, st)

/-! ## Connections (`src/connections/routes.py`) -/

/-- The duplicate-check of `send_request`:
`SELECT id, status FROM connections WHERE (sender_id = s AND receiver_id =
r) OR (sender_id = r AND receiver_id = s)` fetched with `fetch_one`. -/
def find_existing (conns : List Connection) (sender_id user_id : Nat) :
    Option Connection :=
  conns.find? (fun c =>
    (c.sender_id == sender_id && c.receiver_id == user_id) ||
    (c.sender_id == user_id && c.receiver_id == sender_id))

/-- Outcome of the `send_request` route. `alreadyExists` covers both flash
branches (`'pending'`, `'accepted'`) and the silent redirect for any other
existing status: in all three the handler returns without inserting. -/
inductive SendReqResult where
  | refuseSelf
  | alreadyExists (status : String)
  | insertFailed
  | sent
  deriving Repr, DecidableEq

/-- Embeds `send_request(user_id)` from `src/connections/routes.py`:
refuse on self-connection, refuse when a row between the pair exists in
either direction, otherwise `INSERT INTO connections (sender_id,
receiver_id, status, created_at) VALUES (s, r, 'pending', NOW())`; on a
successful insert the receiver gets a `'connection'`-type notification
inside `try/except`. `newId` is the id the database assigns to the row. -/
def send_request (conns : List Connection) (notifs : List Notification)
    (sender_id user_id : Nat) (newId : Nat) (insertOk : Bool)
    (notify : NotifyOutcome) (sender_name : String) :
    SendReqResult × List Connection × List Notification :=
  if sender_id == user_id then (.refuseSelf, conns, notifs)
  else
    match find_existing conns sender_id user_id with
    | some c => (.alreadyExists c.status, conns, notifs)
    | Option.none =>
        if insertOk then
          (.sent, conns ++ [⟨newId, sender_id, user_id, "pending"⟩],
            run_create_notification notifs user_id
              ("You have a new connection request from " ++ sender_name)
              "connection" notify)
        else (.insertFailed, conns, notifs)

/-- Outcome of the `respond_request` route. -/
inductive RespondResult where
  | invalidAction
  | notFound
  | notAuthorized
  | alreadyProcessed
  | accepted
  | rejected
  deriving Repr, DecidableEq

/-- Embeds `respond_request(connection_id, action)` from
`src/connections/routes.py`, checks in source order: action must be
`'accept'` or `'reject'`; the row is fetched by id; the current user must
be its receiver; it must still be `'pending'`. Accepting issues
`UPDATE connections SET status = 'accepted' WHERE id = %s` (its
`execute_query` result is ignored by the code, so `updOk` models a silent
database failure) and notifies the original sender with a
`'connection'`-type notification inside `try/except`; rejecting issues
`DELETE FROM connections WHERE id = %s`. -/
def respond_request (conns : List Connection) (notifs : List Notification)
    (user_id connection_id : Nat) (action : String) (updOk : Bool)
    (notify : NotifyOutcome) (receiver_name : String) :
    RespondResult × List Connection × List Notification :=
  if action != "accept" && action != "reject" then (.invalidAction, conns, notifs)
  else
    match conns.find? (fun c => c.id == connection_id) with
    | Option.none => (.notFound, conns, notifs)
    | some c =>
        if c.receiver_id != user_id then (.notAuthorized, conns, notifs)
        else if c.status != "pending" then (.alreadyProcessed, conns, notifs)
        else if action == "accept" then
          let conns1 := if updOk then
              conns.map (fun x =>
                if x.id == connection_id then { x with status := "accepted" } else x)
            else conns
          (.accepted, conns1,
            run_create_notification notifs c.sender_id
              (receiver_name ++ " accepted your connection request")
              "connection" notify)
        else
          let conns1 := if updOk then
              conns.filter (fun x => x.id != connection_id)
            else conns
          (.rejected, conns1, notifs)

/-- Outcome of the `remove_connection` and `cancel_request` routes. -/
inductive RemoveResult where
  | notFound
  | notAuthorized
  | removed
  deriving Repr, DecidableEq

/-- Embeds `remove_connection(connection_id)` from
`src/connections/routes.py`: fetch the row by id, require the current user
to be its sender or receiver, then
`DELETE FROM connections WHERE id = %s` (result ignored; `delOk` models a
silent database failure). -/
def remove_connection (conns : List Connection) (user_id connection_id : Nat)
    (delOk : Bool) : RemoveResult × List Connection :=
  match conns.find? (fun c => c.id == connection_id) with
  | Option.none => (.notFound, conns)
  | some c =>
      if c.sender_id != user_id && c.receiver_id != user_id then
        (.notAuthorized, conns)
      else
        (.removed, if delOk then conns.filter (fun x => x.id != connection_id) else conns)

/-- Embeds `cancel_request(connection_id)` from `src/connections/routes.py`:
fetch `SELECT * FROM connections WHERE id = %s AND status = 'pending'`,
require the current user to be the sender, then
`DELETE FROM connections WHERE id = %s` (result ignored). -/
def cancel_request (conns : List Connection) (user_id connection_id : Nat)
    (delOk : Bool) : RemoveResult × List Connection :=
  match conns.find? (fun c => c.id == connection_id && c.status == "pending") with
  | Option.none => (.notFound, conns)
  | some c =>
      if c.sender_id != user_id then (.notAuthorized, conns)
      else
        (.removed, if delOk then conns.filter (fun x => x.id != connection_id) else conns)

/-! ## Events (`src/events/routes.py`) -/

/-- A row of the `events` table, reduced to the columns `register` reads
(`SELECT id, title, max_participants FROM events WHERE id = %s`).
`max_participants` is a nullable integer column: `Option Int`, `none` for
SQL NULL. -/
structure EventRow where
  id : Nat
  title : String
  max_participants : Option Int
  deriving Repr, DecidableEq

/-- A row of the `event_registrations` table as inserted by `register`:
`INSERT INTO event_registrations (user_id, event_id, registered_at)`.
`registered_at` is `NOW()`, modelled as the caller-supplied clock value. -/
structure EventReg where
  user_id : Nat
  event_id : Nat
  registered_at : Nat
  deriving Repr, DecidableEq

/-- Python truthiness of the nullable integer `event.get('max_participants')`:
`None` and `0` are falsy, every other integer is truthy. -/
def truthyOptInt : Option Int → Bool
  | Option.none => false
  | some v => v != 0

/-- Outcome of the event `register` route. -/
inductive RegisterResult where
  | eventNotFound
  | alreadyRegistered
  | eventFull
  | insertFailed
  | registered
  deriving Repr, DecidableEq

/-- Embeds `register(id)` from `src/events/routes.py`, checks in source
order: the event is fetched by id; a duplicate registration by the same
user is refused; when `event.get('max_participants')` is truthy (note:
Python truthiness, so NULL and 0 both skip this block) the current
`COUNT(*)` of registrations for the event is compared with
`>= max_participants` and the registration is refused as full; otherwise
the row is inserted and the user gets an `'event'`-type notification inside
`try/except`. -/
def register (events : List EventRow) (regs : List EventReg)
    (notifs : List Notification) (user_id id : Nat) (now : Nat)
    (insertOk : Bool) (notify : NotifyOutcome) :
    RegisterResult × List EventReg × List Notification :=
  match events.find? (fun e => e.id == id) with
  | Option.none => (.eventNotFound, regs, notifs)
  | some event =>
      if (regs.find? (fun r => r.user_id == user_id && r.event_id == id)).isSome then
        (.alreadyRegistered, regs, notifs)
      else if truthyOptInt event.max_participants &&
          decide (((regs.filter (fun r => r.event_id == id)).length : Int) ≥
            event.max_participants.getD 0) then
        (.eventFull, regs, notifs)
      else if insertOk then
        (.registered, regs ++ [⟨user_id, id, now⟩],
          run_create_notification notifs user_id
            ("You have registered for \x22" ++ event.title ++ "\x22.") "event" notify)
      else (.insertFailed, regs, notifs)

/-- Embeds `unregister(id)` from `src/events/routes.py`: refuse when no
registration by the user for the event exists, otherwise
`DELETE FROM event_registrations WHERE user_id = %s AND event_id = %s`
(result ignored; `delOk` models a silent database failure). -/
def unregister (regs : List EventReg) (user_id id : Nat) (delOk : Bool) :
    Bool × List EventReg :=
  if (regs.find? (fun r => r.user_id == user_id && r.event_id == id)).isSome then
    (true,
      if delOk then
        regs.filter (fun r => !(r.user_id == user_id && r.event_id == id))
      else regs)
  else (false, regs)

/-! ## Opportunities (`src/opportunities/routes.py`) -/

/-- A row of the `opportunities` table, reduced to the columns `apply`
reads (`SELECT id, title FROM opportunities WHERE id = %s`). -/
structure Opportunity where
  id : Nat
  title : String
  deriving Repr, DecidableEq

/-- A row of the `applications` table as inserted by `apply`:
`INSERT INTO applications (user_id, opportunity_id, resume_file, status,
applied_at) VALUES (u, o, f, 'pending', NOW())`, plus the auto-increment
`id` used by `withdraw_application`. -/
structure Application where
  id : Nat
  user_id : Nat
  opportunity_id : Nat
  resume_file : String
  status : String
  deriving Repr, DecidableEq

/-- Outcome of the opportunity `apply` route. -/
inductive ApplyResult where
  | oppNotFound
  | alreadyApplied
  | formInvalid
  | insertFailed
  | submitted
  deriving Repr, DecidableEq

/-- Embeds `apply(id)` from `src/opportunities/routes.py`, checks in source
order: the opportunity is fetched by id; a second application by the same
user for the same opportunity is refused; the WTForms resume upload must
validate; then the row is inserted with status `'pending'` and the user
gets an `'opportunity'`-type notification inside `try/except`. `filename`
is the generated resume file name, `newId` the database-assigned id. -/
def apply (opps : List Opportunity) (apps : List Application)
    (notifs : List Notification) (user_id id : Nat) (formValid : Bool)
    (filename : String) (newId : Nat) (insertOk : Bool)
    (notify : NotifyOutcome) :
    ApplyResult × List Application × List Notification :=
  match opps.find? (fun o => o.id == id) with
  | Option.none => (.oppNotFound, apps, notifs)
  | some opp =>
      if (apps.find? (fun a => a.user_id == user_id && a.opportunity_id == id)).isSome then
        (.alreadyApplied, apps, notifs)
      else if formValid then
        if insertOk then
          (.submitted, apps ++ [⟨newId, user_id, id, filename, "pending"⟩],
            run_create_notification notifs user_id
              ("Your application for \x22" ++ opp.title ++ "\x22 has been submitted.")
              "opportunity" notify)
        else (.insertFailed, apps, notifs)
      else (.formInvalid, apps, notifs)

/-- Outcome of the `withdraw_application` route. -/
inductive WithdrawResult where
  | notFound
  | notPending
  | withdrawn
  deriving Repr, DecidableEq

/-- Embeds `withdraw_application(application_id)` from
`src/opportunities/routes.py`: fetch
`SELECT * FROM applications WHERE id = %s AND user_id = %s` (so a row not
owned by the requester is reported not found), require status `'pending'`,
then `DELETE FROM applications WHERE id = %s AND user_id = %s` (result
ignored; `delOk` models a silent database failure). -/
def withdraw_application (apps : List Application)
    (user_id application_id : Nat) (delOk : Bool) :
    WithdrawResult × List Application :=
  match apps.find? (fun a => a.id == application_id && a.user_id == user_id) with
  | Option.none => (.notFound, apps)
  | some a =>
      if a.status != "pending" then (.notPending, apps)
      else
        (.withdrawn,
          if delOk then
            apps.filter (fun x => !(x.id == application_id && x.user_id == user_id))
          else apps)

/-! ## Feed likes (`src/feed/routes.py`) -/

/-- A row of the `likes` table as used by `like_post`: the code reads and
deletes rows only by the `(user_id, post_id)` pair, and the `created_at`
column written by the INSERT is never read anywhere in the repository, so
the row model is the pair itself. -/
structure Like where
  user_id : Nat
  post_id : Nat
  deriving Repr, DecidableEq

/-- Embeds `like_post(post_id)` from `src/feed/routes.py`:
`SELECT * FROM likes WHERE user_id = %s AND post_id = %s` decides between
`DELETE FROM likes WHERE user_id = %s AND post_id = %s` (unlike) and
`INSERT INTO likes (user_id, post_id, created_at) VALUES (u, p, NOW())`
(like). The write results are ignored by the code; `dbOk` models a silent
database failure of the write. -/
def like_post (likes : List Like) (user_id post_id : Nat) (dbOk : Bool) :
    List Like :=
  if (likes.find? (fun l => l.user_id == user_id && l.post_id == post_id)).isSome then
    if dbOk then
      likes.filter (fun l => !(l.user_id == user_id && l.post_id == post_id))
    else likes
  else
    if dbOk then likes ++ [⟨user_id, post_id⟩] else likes

/-! ## Helper lemmas -/

/-- The Boolean guard `is_connected` decides exactly the spec-level
predicate `AcceptedBetween`. -/
theorem is_connected_iff (conns : List Connection) (u p : Nat) :
    is_connected conns u p = true ↔ AcceptedBetween conns u p := by
  simp only [is_connected, AcceptedBetween, List.find?_isSome, Bool.and_eq_true,
    Bool.or_eq_true, beq_iff_eq]

/-- Shape of the `send_request` result table: unchanged, or exactly one
appended row with status pending, the latter only for a distinct pair with
no existing row in either direction. -/
theorem send_request_shape (conns : List Connection) (notifs : List Notification)
    (sender_id user_id newId : Nat) (insertOk : Bool) (notify : NotifyOutcome)
    (sender_name : String) :
    (send_request conns notifs sender_id user_id newId insertOk notify sender_name).2.1 =
        conns ∨
      ((send_request conns notifs sender_id user_id newId insertOk notify sender_name).2.1 =
          conns ++ [⟨newId, sender_id, user_id, "pending"⟩] ∧
        sender_id ≠ user_id ∧ find_existing conns sender_id user_id = Option.none) := by
  cases hsu : (sender_id == user_id) with
  | true => left; simp [send_request, hsu]
  | false =>
      cases hex : find_existing conns sender_id user_id with
      | none =>
          cases insertOk with
          | false => left; simp [send_request, hsu, hex]
          | true =>
              right
              exact ⟨by simp [send_request, hsu, hex], by simpa using hsu, rfl⟩
      | some c => left; simp [send_request, hsu, hex]

/-- Every row of the `respond_request` result table is an original row or
an original pending row rewritten to accepted (given that the table holds
only pending and accepted rows). -/
theorem respond_request_rows (conns : List Connection) (notifs : List Notification)
    (user_id connection_id : Nat) (action : String) (updOk : Bool)
    (notify : NotifyOutcome) (receiver_name : String)
    (hinv : ∀ c ∈ conns, c.status = "pending" ∨ c.status = "accepted") :
    ∀ c ∈ (respond_request conns notifs user_id connection_id action updOk notify
        receiver_name).2.1,
      c ∈ conns ∨ ∃ c0 ∈ conns, c0.status = "pending" ∧
        c = { c0 with status := "accepted" } := by
  intro c hc
  cases hact : (action != "accept" && action != "reject") with
  | true =>
      simp [respond_request, hact] at hc
      exact Or.inl hc
  | false =>
      rcases hfind : conns.find? (fun x => x.id == connection_id) with _ | c0
      · simp [respond_request, hact, hfind] at hc
        exact Or.inl hc
      · cases hrcv : (c0.receiver_id != user_id) with
        | true =>
            simp [respond_request, hact, hfind, hrcv] at hc
            exact Or.inl hc
        | false =>
            cases hst : (c0.status != "pending") with
            | true =>
                simp [respond_request, hact, hfind, hrcv, hst] at hc
                exact Or.inl hc
            | false =>
                cases hacc : (action == "accept") with
                | true =>
                    cases updOk with
                    | false =>
                        simp [respond_request, hact, hfind, hrcv, hst, hacc] at hc
                        exact Or.inl hc
                    | true =>
                        simp only [respond_request, hact, hfind, hrcv, hst, hacc,
                          Bool.false_eq_true, if_false, if_true] at hc
                        rw [List.mem_map] at hc
                        obtain ⟨x, hx, hxc⟩ := hc
                        cases hxid : (x.id == connection_id) with
                        | true =>
                            rw [if_pos hxid] at hxc
                            rcases hinv x hx with hxp | hxa
                            · exact Or.inr ⟨x, hx, hxp, hxc.symm⟩
                            · left
                              have hsame : ({ x with status := "accepted" } : Connection) = x := by
                                cases x; simp_all
                              rw [← hxc, hsame]; exact hx
                        | false =>
                            rw [if_neg (by simp [hxid])] at hxc
                            rw [← hxc]; exact Or.inl hx
                | false =>
                    cases updOk with
                    | false =>
                        simp [respond_request, hact, hfind, hrcv, hst, hacc] at hc
                        exact Or.inl hc
                    | true =>
                        simp only [respond_request, hact, hfind, hrcv, hst, hacc,
                          Bool.false_eq_true, if_false, if_true] at hc
                        rw [List.mem_filter] at hc
                        exact Or.inl hc.1

/-- `remove_connection` only ever deletes rows. -/
theorem remove_connection_subset (conns : List Connection)
    (user_id connection_id : Nat) (delOk : Bool) :
    ∀ c ∈ (remove_connection conns user_id connection_id delOk).2, c ∈ conns := by
  intro c hc
  rcases hfind : conns.find? (fun x => x.id == connection_id) with _ | c0
  · simp [remove_connection, hfind] at hc
    exact hc
  · cases hauth : (c0.sender_id != user_id && c0.receiver_id != user_id) with
    | true =>
        simp [remove_connection, hfind, hauth] at hc
        exact hc
    | false =>
        cases delOk with
        | false =>
            simp [remove_connection, hfind, hauth] at hc
            exact hc
        | true =>
            simp only [remove_connection, hfind, hauth, Bool.false_eq_true,
              if_false, if_true] at hc
            exact (List.mem_filter.mp hc).1

/-- `cancel_request` only ever deletes rows. -/
theorem cancel_request_subset (conns : List Connection)
    (user_id connection_id : Nat) (delOk : Bool) :
    ∀ c ∈ (cancel_request conns user_id connection_id delOk).2, c ∈ conns := by
  intro c hc
  rcases hfind : conns.find? (fun x => x.id == connection_id && x.status == "pending")
      with _ | c0
  · simp [cancel_request, hfind] at hc
    exact hc
  · cases hauth : (c0.sender_id != user_id) with
    | true =>
        simp [cancel_request, hfind, hauth] at hc
        exact hc
    | false =>
        cases delOk with
        | false =>
            simp [cancel_request, hfind, hauth] at hc
            exact hc
        | true =>
            simp only [cancel_request, hfind, hauth, Bool.false_eq_true,
              if_false, if_true] at hc
            exact (List.mem_filter.mp hc).1

/-! ## Claim theorems -/

/-- C2: `execute_query` returns `None` when the database connection cannot
be established or the driver raises an `Error` during execution, and in the
error cases the database is unchanged (a commit call is rolled back, a
non-commit call never commits); a successful `fetch_one` call returns the
fetched row, a successful `fetch_all` call the list of rows, and a
successful commit call commits the statement and returns the cursor's
`lastrowid`. -/
theorem execute_query_contract {Row Db : Type} (fetch_one fetch_all commit : Bool)
    (db : Db) (o : ExecOk Row Db) :
    execute_query fetch_one fetch_all commit db (Driver.connectFail : Driver Row Db) =
      (QueryValue.none, db) ∧
    execute_query fetch_one fetch_all commit db (Driver.execError : Driver Row Db) =
      (QueryValue.none, db) ∧
    execute_query true fetch_all commit db (Driver.ok o) = (QueryValue.row o.row, db) ∧
    execute_query false true commit db (Driver.ok o) = (QueryValue.rows o.rows, db) ∧
    execute_query false false true db (Driver.ok o) =
      (QueryValue.lastrowid o.lastrowid, o.newDb) :=
  ⟨rfl, rfl, rfl, rfl, rfl⟩

/-- C3 counterexample: a message from partner 2 to user 1 that is already
read is still counted by both the chat_list per-conversation count and the
dashboard badge, while the count of unread messages the claim describes is
zero. -/
theorem unread_counts_cex :
    chat_list_unread_count [⟨2, 1, true⟩] 1 2 = 1 ∧
    spec_chat_unread_count [⟨2, 1, true⟩] 1 2 = 0 ∧
    dashboard_unread_messages [⟨2, 1, true⟩] 1 = 1 ∧
    spec_dashboard_unread_count [⟨2, 1, true⟩] 1 = 0 := by
  decide

/-- C3 (amended): the chat_list per-conversation count counts all of the
partner's messages to the current user regardless of read state — the
unread ones plus the already-read ones — and the dashboard badge counts
all messages the current user has received, read or not. -/
theorem unread_counts_count_all_messages (msgs : List MessageR) (user_id partner_id : Nat) :
    chat_list_unread_count msgs user_id partner_id =
      spec_chat_unread_count msgs user_id partner_id +
        (msgs.filter (fun m =>
          m.sender_id == partner_id && m.receiver_id == user_id && m.is_read)).length ∧
    dashboard_unread_messages msgs user_id =
      spec_dashboard_unread_count msgs user_id +
        (msgs.filter (fun m => m.receiver_id == user_id && m.is_read)).length := by
  constructor
  · induction msgs with
    | nil => rfl
    | cons m t ih =>
        simp only [chat_list_unread_count, spec_chat_unread_count, List.filter_cons] at ih ⊢
        cases hs : (m.sender_id == partner_id) <;>
          cases hr : (m.receiver_id == user_id) <;>
            cases hread : m.is_read <;>
              simp [hs, hr, hread] <;> omega
  · induction msgs with
    | nil => rfl
    | cons m t ih =>
        simp only [dashboard_unread_messages, spec_dashboard_unread_count,
          List.filter_cons] at ih ⊢
        cases hr : (m.receiver_id == user_id) <;>
          cases hread : m.is_read <;>
            simp [hr, hread] <;> omega

/-- C1: for a logged-in user and a target partner, `conversation` and
`send_message` proceed only when an accepted connection exists between the
two in either direction; when no such connection exists or the partner is
the user themselves, both operations refuse with a warning redirect —
`conversation` returning no message history and `send_message` leaving the
message and notification tables unchanged — and `send_message` additionally
refuses, inserting nothing, whenever the message text is empty after
trimming. -/
theorem chat_requires_connection
    (users : List User) (conns : List Connection) (st : ChatState)
    (user_id partner_id : Nat) (raw_message : String) (now : Nat)
    (insertOk : Bool) (notify : NotifyOutcome) (sender_name : String) :
    (partner_id = user_id ∨ ¬ AcceptedBetween conns user_id partner_id →
      (conversation users conns st.messages user_id partner_id = ConvResult.refuseSelf ∨
        conversation users conns st.messages user_id partner_id =
          ConvResult.refuseNotConnected) ∧
      ((send_message conns st user_id partner_id raw_message now insertOk notify
          sender_name).1 = SendMsgResult.refuseSelf ∨
        (send_message conns st user_id partner_id raw_message now insertOk notify
          sender_name).1 = SendMsgResult.refuseNotConnected) ∧
      (send_message conns st user_id partner_id raw_message now insertOk notify
        sender_name).2 = st) ∧
    (∀ partner msgs,
      conversation users conns st.messages user_id partner_id = ConvResult.page partner msgs →
        partner_id ≠ user_id ∧ AcceptedBetween conns user_id partner_id) ∧
    ((send_message conns st user_id partner_id raw_message now insertOk notify
        sender_name).1 = SendMsgResult.sent →
      partner_id ≠ user_id ∧ AcceptedBetween conns user_id partner_id ∧
        pyStrip raw_message ≠ "") ∧
    (pyStrip raw_message = "" →
      (send_message conns st user_id partner_id raw_message now insertOk notify
        sender_name).2 = st ∧
      (send_message conns st user_id partner_id raw_message now insertOk notify
        sender_name).1 ≠ SendMsgResult.sent) := by
  refine ⟨?_, ?_, ?_, ?_⟩
  · intro h
    cases hpu : (partner_id == user_id) with
    | true => simp [conversation, send_message, hpu]
    | false =>
        have hic : is_connected conns user_id partner_id = false := by
          rcases h with h | h
          · exact absurd h (by simpa using hpu)
          · exact Bool.eq_false_iff.mpr (fun hc => h ((is_connected_iff conns user_id partner_id).mp hc))
        simp [conversation, send_message, hpu, hic]
  · intro partner msgs h
    cases hpu : (partner_id == user_id) with
    | true => simp [conversation, hpu] at h
    | false =>
        cases hic : is_connected conns user_id partner_id with
        | false => simp [conversation, hpu, hic] at h
        | true =>
            exact ⟨by simpa using hpu, (is_connected_iff conns user_id partner_id).mp hic⟩
  · intro hs
    cases hpu : (partner_id == user_id) with
    | true => simp [send_message, hpu] at hs
    | false =>
        cases hic : is_connected conns user_id partner_id with
        | false => simp [send_message, hpu, hic] at hs
        | true =>
            cases ht : (pyStrip raw_message == "") with
            | true => simp [send_message, hpu, hic, ht] at hs
            | false =>
                exact ⟨by simpa using hpu,
                  (is_connected_iff conns user_id partner_id).mp hic, by simpa using ht⟩
  · intro he
    cases hpu : (partner_id == user_id) with
    | true => simp [send_message, hpu]
    | false =>
        cases hic : is_connected conns user_id partner_id with
        | false => simp [send_message, hpu, hic]
        | true => simp [send_message, hpu, hic, he]

/-- C1 witness: at a concrete state with an accepted connection 1-2, a
self-targeted request refuses, and a successful send shows the hypotheses
of the access-control theorem are satisfiable. -/
theorem chat_requires_connection_witness :
    ((conversation [⟨2, "Bob"⟩] [⟨1, 1, 2, "accepted"⟩] [] 1 1 = ConvResult.refuseSelf ∨
      conversation [⟨2, "Bob"⟩] [⟨1, 1, 2, "accepted"⟩] [] 1 1 =
        ConvResult.refuseNotConnected) ∧
     ((send_message [⟨1, 1, 2, "accepted"⟩] ⟨[], []⟩ 1 1 " hi " 5 true (.ok 7)
        "Alice").1 = SendMsgResult.refuseSelf ∨
      (send_message [⟨1, 1, 2, "accepted"⟩] ⟨[], []⟩ 1 1 " hi " 5 true (.ok 7)
        "Alice").1 = SendMsgResult.refuseNotConnected) ∧
     (send_message [⟨1, 1, 2, "accepted"⟩] ⟨[], []⟩ 1 1 " hi " 5 true (.ok 7)
       "Alice").2 = ⟨[], []⟩) ∧
    (2 ≠ 1 ∧ AcceptedBetween [⟨1, 1, 2, "accepted"⟩] 1 2 ∧ pyStrip " hi " ≠ "") := by
  constructor
  · exact (chat_requires_connection [⟨2, "Bob"⟩] [⟨1, 1, 2, "accepted"⟩] ⟨[], []⟩
      1 1 " hi " 5 true (.ok 7) "Alice").1 (Or.inl rfl)
  · exact (chat_requires_connection [⟨2, "Bob"⟩] [⟨1, 1, 2, "accepted"⟩] ⟨[], []⟩
      1 2 " hi " 5 true (.ok 7) "Alice").2.2.1 (by decide)

/-- C4: every connection row is created with status pending — `send_request`
either leaves the table unchanged (in particular whenever the sender equals
the receiver or a row between the pair already exists in either direction)
or appends exactly one row with status pending; every row `respond_request`
leaves behind is an original row or an original pending row rewritten to
accepted (the only status update ever issued); `remove_connection` and
`cancel_request` only delete rows; consequently all four operations
preserve the invariant that every connection row has status pending or
accepted. -/
theorem connection_rows_pending_or_accepted
    (conns : List Connection) (notifs : List Notification)
    (sender_id user_id newId uid cid : Nat) (action : String)
    (insertOk updOk delOk : Bool) (notify : NotifyOutcome) (name : String)
    (hinv : ∀ c ∈ conns, c.status = "pending" ∨ c.status = "accepted") :
    ((send_request conns notifs sender_id user_id newId insertOk notify name).2.1 =
        conns ∨
      ((send_request conns notifs sender_id user_id newId insertOk notify name).2.1 =
          conns ++ [⟨newId, sender_id, user_id, "pending"⟩] ∧
        sender_id ≠ user_id ∧ find_existing conns sender_id user_id = Option.none)) ∧
    (∀ c ∈ (respond_request conns notifs uid cid action updOk notify name).2.1,
      c ∈ conns ∨ ∃ c0 ∈ conns, c0.status = "pending" ∧
        c = { c0 with status := "accepted" }) ∧
    (∀ c ∈ (remove_connection conns uid cid delOk).2, c ∈ conns) ∧
    (∀ c ∈ (cancel_request conns uid cid delOk).2, c ∈ conns) ∧
    (∀ c ∈ (send_request conns notifs sender_id user_id newId insertOk notify name).2.1,
      c.status = "pending" ∨ c.status = "accepted") ∧
    (∀ c ∈ (respond_request conns notifs uid cid action updOk notify name).2.1,
      c.status = "pending" ∨ c.status = "accepted") ∧
    (∀ c ∈ (remove_connection conns uid cid delOk).2,
      c.status = "pending" ∨ c.status = "accepted") ∧
    (∀ c ∈ (cancel_request conns uid cid delOk).2,
      c.status = "pending" ∨ c.status = "accepted") := by
  refine ⟨send_request_shape conns notifs sender_id user_id newId insertOk notify name,
    respond_request_rows conns notifs uid cid action updOk notify name hinv,
    remove_connection_subset conns uid cid delOk,
    cancel_request_subset conns uid cid delOk, ?_, ?_, ?_, ?_⟩
  · intro c hc
    rcases send_request_shape conns notifs sender_id user_id newId insertOk notify name
        with h | ⟨h, _, _⟩
    · rw [h] at hc; exact hinv c hc
    · rw [h] at hc
      rcases List.mem_append.mp hc with hc | hc
      · exact hinv c hc
      · left
        rw [List.mem_singleton.mp hc]
  · intro c hc
    rcases respond_request_rows conns notifs uid cid action updOk notify name hinv c hc
        with h | ⟨c0, _, _, hceq⟩
    · exact hinv c h
    · right
      rw [hceq]
  · intro c hc
    exact hinv c (remove_connection_subset conns uid cid delOk c hc)
  · intro c hc
    exact hinv c (cancel_request_subset conns uid cid delOk c hc)

/-- C4 witness: the invariant theorem applied at the empty table. -/
theorem connection_rows_pending_or_accepted_witness :
    (∀ c ∈ ([] : List Connection), c.status = "pending" ∨ c.status = "accepted") ∧
    (((send_request [] [] 1 2 7 true (.ok 3) "N").2.1 = [] ∨
      ((send_request [] [] 1 2 7 true (.ok 3) "N").2.1 =
          [] ++ [⟨7, 1, 2, "pending"⟩] ∧
        1 ≠ 2 ∧ find_existing [] 1 2 = Option.none)) ∧
    (∀ c ∈ (respond_request [] [] 1 1 "accept" true (.ok 3) "N").2.1,
      c ∈ ([] : List Connection) ∨ ∃ c0 ∈ ([] : List Connection),
        c0.status = "pending" ∧ c = { c0 with status := "accepted" }) ∧
    (∀ c ∈ (remove_connection [] 1 1 true).2, c ∈ ([] : List Connection)) ∧
    (∀ c ∈ (cancel_request [] 1 1 true).2, c ∈ ([] : List Connection)) ∧
    (∀ c ∈ (send_request [] [] 1 2 7 true (.ok 3) "N").2.1,
      c.status = "pending" ∨ c.status = "accepted") ∧
    (∀ c ∈ (respond_request [] [] 1 1 "accept" true (.ok 3) "N").2.1,
      c.status = "pending" ∨ c.status = "accepted") ∧
    (∀ c ∈ (remove_connection [] 1 1 true).2,
      c.status = "pending" ∨ c.status = "accepted") ∧
    (∀ c ∈ (cancel_request [] 1 1 true).2,
      c.status = "pending" ∨ c.status = "accepted")) :=
  ⟨by simp,
    connection_rows_pending_or_accepted [] [] 1 2 7 1 1 "accept" true true true
      (.ok 3) "N" (by simp)⟩

/-- C5: `respond_request` modifies the connections table only when the row
fetched for the given id exists, the requesting user is its receiver, its
status is still pending, and the action is accept or reject; in every other
case (unknown id, wrong receiver, already processed request, invalid
action) it refuses — the result is neither accepted nor rejected — and the
connections table is unchanged. -/
theorem respond_request_guard
    (conns : List Connection) (notifs : List Notification)
    (user_id connection_id : Nat) (action : String) (updOk : Bool)
    (notify : NotifyOutcome) (receiver_name : String) :
    ((respond_request conns notifs user_id connection_id action updOk notify
        receiver_name).2.1 ≠ conns →
      (action = "accept" ∨ action = "reject") ∧
      ∃ c, conns.find? (fun x => x.id == connection_id) = some c ∧
        c.receiver_id = user_id ∧ c.status = "pending") ∧
    (¬ ((action = "accept" ∨ action = "reject") ∧
        ∃ c, conns.find? (fun x => x.id == connection_id) = some c ∧
          c.receiver_id = user_id ∧ c.status = "pending") →
      (respond_request conns notifs user_id connection_id action updOk notify
        receiver_name).2.1 = conns ∧
      (respond_request conns notifs user_id connection_id action updOk notify
        receiver_name).1 ≠ RespondResult.accepted ∧
      (respond_request conns notifs user_id connection_id action updOk notify
        receiver_name).1 ≠ RespondResult.rejected) := by
  cases hact : (action != "accept" && action != "reject") with
  | true => simp [respond_request, hact]
  | false =>
      have haction : action = "accept" ∨ action = "reject" := by
        by_contra h
        push_neg at h
        simp [h.1, h.2] at hact
      rcases hfind : conns.find? (fun x => x.id == connection_id) with _ | c0
      · constructor
        · intro hne
          exact absurd (by simp [respond_request, hact, hfind]) hne
        · intro _
          refine ⟨by simp [respond_request, hact, hfind], ?_, ?_⟩ <;>
            simp [respond_request, hact, hfind]
      · cases hrcv : (c0.receiver_id != user_id) with
        | true =>
            have hne : c0.receiver_id ≠ user_id := by simpa using hrcv
            constructor
            · intro hmod
              exact absurd (by simp [respond_request, hact, hfind, hrcv]) hmod
            · intro _
              refine ⟨by simp [respond_request, hact, hfind, hrcv], ?_, ?_⟩ <;>
                simp [respond_request, hact, hfind, hrcv]
        | false =>
            cases hst : (c0.status != "pending") with
            | true =>
                constructor
                · intro hmod
                  exact absurd (by simp [respond_request, hact, hfind, hrcv, hst]) hmod
                · intro _
                  refine ⟨by simp [respond_request, hact, hfind, hrcv, hst], ?_, ?_⟩ <;>
                    simp [respond_request, hact, hfind, hrcv, hst]
            | false =>
                have hcond : (action = "accept" ∨ action = "reject") ∧
                    ∃ c, conns.find? (fun x => x.id == connection_id) = some c ∧
                      c.receiver_id = user_id ∧ c.status = "pending" :=
                  ⟨haction, c0, hfind, by simpa using hrcv, by simpa using hst⟩
                exact ⟨fun _ => hcond, fun h => absurd hcond h⟩

/-- C5 witness: accepting a pending request as its receiver does modify the
table, and the guard theorem then certifies a valid action and a fetched
pending row addressed to the receiver; a response by a stranger leaves the
table unchanged and is neither accepted nor rejected. -/
theorem respond_request_guard_witness :
    ((respond_request [⟨1, 1, 2, "pending"⟩] [] 2 1 "accept" true (.ok 3)
        "N").2.1 ≠ [⟨1, 1, 2, "pending"⟩] ∧
      ("accept" = "accept" ∨ "accept" = "reject") ∧
      ∃ c, ([⟨1, 1, 2, "pending"⟩] : List Connection).find? (fun x => x.id == 1) =
          some c ∧ c.receiver_id = 2 ∧ c.status = "pending") ∧
    (¬ (("accept" = "accept" ∨ "accept" = "reject") ∧
        ∃ c, ([⟨1, 1, 2, "pending"⟩] : List Connection).find? (fun x => x.id == 1) =
          some c ∧ c.receiver_id = 9 ∧ c.status = "pending") ∧
      (respond_request [⟨1, 1, 2, "pending"⟩] [] 9 1 "accept" true (.ok 3)
        "N").2.1 = [⟨1, 1, 2, "pending"⟩] ∧
      (respond_request [⟨1, 1, 2, "pending"⟩] [] 9 1 "accept" true (.ok 3)
        "N").1 ≠ RespondResult.accepted ∧
      (respond_request [⟨1, 1, 2, "pending"⟩] [] 9 1 "accept" true (.ok 3)
        "N").1 ≠ RespondResult.rejected) :=
  ⟨⟨by decide,
    (respond_request_guard [⟨1, 1, 2, "pending"⟩] [] 2 1 "accept" true (.ok 3)
      "N").1 (by decide)⟩,
   ⟨by decide,
    (respond_request_guard [⟨1, 1, 2, "pending"⟩] [] 9 1 "accept" true (.ok 3)
      "N").2 (by decide)⟩⟩

/-- C6 counterexample: an event whose stored max_participants value is 0
already has as many registrations (zero) as its limit, yet `register`
inserts the registration instead of refusing it as full — Python evaluates
`if event.get('max_participants'):` as falsy for 0 and skips the capacity
check entirely. -/
theorem register_capacity_cex :
    (register [⟨1, "Workshop", some 0⟩] [] [] 5 1 9 true (.ok 3)).1 =
        RegisterResult.registered ∧
    (register [⟨1, "Workshop", some 0⟩] [] [] 5 1 9 true (.ok 3)).2.1 = [⟨5, 1, 9⟩] ∧
    ¬ (((([] : List EventReg).filter (fun r => r.event_id == 1)).length : Int) <
        ((some 0 : Option Int).getD 0)) := by
  decide

/-- C6 (amended): `register(id)` inserts an event registration only when
the event exists, the user is not already registered, and — whenever the
event has a truthy max_participants value m (non-NULL and nonzero) — the
current registration count is strictly below m; when the event has a
truthy limit the count has reached, the registration is refused as full
and nothing is inserted; an event whose max_participants is NULL or 0 is
never refused for capacity. -/
theorem register_capacity_guard
    (events : List EventRow) (regs : List EventReg) (notifs : List Notification)
    (user_id id now : Nat) (insertOk : Bool) (notify : NotifyOutcome) :
    ((register events regs notifs user_id id now insertOk notify).2.1 ≠ regs →
      (register events regs notifs user_id id now insertOk notify).2.1 =
        regs ++ [⟨user_id, id, now⟩] ∧
      ∃ e, events.find? (fun x => x.id == id) = some e ∧
        regs.find? (fun r => r.user_id == user_id && r.event_id == id) = Option.none ∧
        (∀ m : Int, e.max_participants = some m → m ≠ 0 →
          ((regs.filter (fun r => r.event_id == id)).length : Int) < m)) ∧
    (∀ e, events.find? (fun x => x.id == id) = some e →
      regs.find? (fun r => r.user_id == user_id && r.event_id == id) = Option.none →
      truthyOptInt e.max_participants = true →
      e.max_participants.getD 0 ≤
        ((regs.filter (fun r => r.event_id == id)).length : Int) →
      (register events regs notifs user_id id now insertOk notify).1 =
          RegisterResult.eventFull ∧
      (register events regs notifs user_id id now insertOk notify).2.1 = regs) ∧
    (∀ e, events.find? (fun x => x.id == id) = some e →
      (e.max_participants = Option.none ∨ e.max_participants = some 0) →
      (register events regs notifs user_id id now insertOk notify).1 ≠
        RegisterResult.eventFull) := by
  rcases hfind : events.find? (fun x => x.id == id) with _ | e
  · refine ⟨?_, ?_, ?_⟩
    · intro hne
      exact absurd (by simp [register, hfind]) hne
    · intro e he
      rw [hfind] at he; exact absurd he (by simp)
    · intro e he
      rw [hfind] at he; exact absurd he (by simp)
  · rcases hdup : regs.find? (fun r => r.user_id == user_id && r.event_id == id)
        with _ | r0
    · cases hcap : (truthyOptInt e.max_participants &&
          decide (e.max_participants.getD 0 ≤
            ((regs.filter (fun r => r.event_id == id)).length : Int))) with
      | true =>
          have hres : (register events regs notifs user_id id now insertOk notify).1 =
                RegisterResult.eventFull ∧
              (register events regs notifs user_id id now insertOk notify).2.1 = regs := by
            constructor <;> simp [register, hfind, hdup, ge_iff_le, hcap]
          refine ⟨?_, ?_, ?_⟩
          · intro hne
            exact absurd hres.2 hne
          · intro e2 he2 _ _ _
            rw [hfind] at he2
            cases he2
            exact hres
          · intro e2 he2 hmp
            rw [hfind] at he2
            cases he2
            rw [Bool.and_eq_true] at hcap
            rcases hmp with hmp | hmp <;> simp [truthyOptInt, hmp] at hcap
      | false =>
          have hnotfull : ∀ m : Int, e.max_participants = some m → m ≠ 0 →
              ((regs.filter (fun r => r.event_id == id)).length : Int) < m := by
            intro m hm hm0
            rcases Bool.and_eq_false_iff.mp hcap with htr | hge
            · simp [truthyOptInt, hm] at htr
              exact absurd htr hm0
            · have hnle := of_decide_eq_false hge
              rw [hm] at hnle
              simpa using lt_of_not_le hnle
          cases insertOk with
          | true =>
              refine ⟨?_, ?_, ?_⟩
              · intro _
                exact ⟨by simp [register, hfind, hdup, ge_iff_le, hcap], e, hfind, hdup, hnotfull⟩
              · intro e2 he2 _ htr hge
                rw [hfind] at he2
                cases he2
                rcases Bool.and_eq_false_iff.mp hcap with htr2 | hge2
                · rw [htr] at htr2; cases htr2
                · exact absurd (decide_eq_true hge) (by simp [hge2])
              · intro e2 he2 hmp
                rw [hfind] at he2
                cases he2
                simp [register, hfind, hdup, ge_iff_le, hcap]
          | false =>
              refine ⟨?_, ?_, ?_⟩
              · intro hne
                exact absurd (by simp [register, hfind, hdup, ge_iff_le, hcap]) hne
              · intro e2 he2 _ htr hge
                rw [hfind] at he2
                cases he2
                rcases Bool.and_eq_false_iff.mp hcap with htr2 | hge2
                · rw [htr] at htr2; cases htr2
                · exact absurd (decide_eq_true hge) (by simp [hge2])
              · intro e2 he2 hmp
                rw [hfind] at he2
                cases he2
                simp [register, hfind, hdup, ge_iff_le, hcap]
    · refine ⟨?_, ?_, ?_⟩
      · intro hne
        exact absurd (by simp [register, hfind, hdup]) hne
      · intro e2 he2 hdup2
        rw [hdup] at hdup2; cases hdup2
      · intro e2 he2 hmp
        simp [register, hfind, hdup]

/-- C6 witness: a registration inserted below a limit of 2, a registration
refused as full at a reached limit of 1, and an unlimited (NULL) event
never refused for capacity, all instantiate the amended guard theorem. -/
theorem register_capacity_guard_witness :
    ((register [⟨1, "W", some 2⟩] [] [] 5 1 9 true (.ok 3)).2.1 ≠ [] ∧
      (register [⟨1, "W", some 2⟩] [] [] 5 1 9 true (.ok 3)).2.1 =
        [] ++ [⟨5, 1, 9⟩] ∧
      ∃ e, ([⟨1, "W", some 2⟩] : List EventRow).find? (fun x => x.id == 1) = some e ∧
        ([] : List EventReg).find? (fun r => r.user_id == 5 && r.event_id == 1) =
          Option.none ∧
        (∀ m : Int, e.max_participants = some m → m ≠ 0 →
          ((([] : List EventReg).filter (fun r => r.event_id == 1)).length : Int) < m)) ∧
    ((register [⟨1, "W", some 1⟩] [⟨4, 1, 0⟩] [] 5 1 9 true (.ok 3)).1 =
        RegisterResult.eventFull ∧
      (register [⟨1, "W", some 1⟩] [⟨4, 1, 0⟩] [] 5 1 9 true (.ok 3)).2.1 =
        [⟨4, 1, 0⟩]) ∧
    ((register [⟨1, "W", Option.none⟩] [] [] 5 1 9 true (.ok 3)).1 ≠
        RegisterResult.eventFull) := by
  refine ⟨⟨by decide,
    (register_capacity_guard [⟨1, "W", some 2⟩] [] [] 5 1 9 true (.ok 3)).1
      (by decide)⟩, ?_, ?_⟩
  · exact (register_capacity_guard [⟨1, "W", some 1⟩] [⟨4, 1, 0⟩] [] 5 1 9 true
      (.ok 3)).2.1 ⟨1, "W", some 1⟩ (by decide) (by decide) (by decide) (by decide)
  · exact (register_capacity_guard [⟨1, "W", Option.none⟩] [] [] 5 1 9 true
      (.ok 3)).2.2 ⟨1, "W", Option.none⟩ (by decide) (Or.inl rfl)

/-- C7: every application `apply` creates is inserted with status pending —
the applications table is either unchanged or gets exactly one appended row
whose status is pending; a user who already has an application for the same
opportunity is refused without a second insert; and `withdraw_application`
deletes rows only when the application fetched for the requester exists and
is still pending, refusing with the table unchanged otherwise (not found
covers rows not owned by the requester, since the fetch filters on the
user id). -/
theorem applications_pending_guard
    (opps : List Opportunity) (apps : List Application) (notifs : List Notification)
    (user_id id application_id : Nat) (formValid : Bool) (filename : String)
    (newId : Nat) (insertOk : Bool) (notify : NotifyOutcome) (delOk : Bool) :
    ((apply opps apps notifs user_id id formValid filename newId insertOk notify).2.1 =
        apps ∨
      (apply opps apps notifs user_id id formValid filename newId insertOk notify).2.1 =
        apps ++ [⟨newId, user_id, id, filename, "pending"⟩]) ∧
    (∀ o, opps.find? (fun x => x.id == id) = some o →
      (apps.find? (fun a => a.user_id == user_id && a.opportunity_id == id)).isSome =
        true →
      (apply opps apps notifs user_id id formValid filename newId insertOk notify).1 =
          ApplyResult.alreadyApplied ∧
      (apply opps apps notifs user_id id formValid filename newId insertOk notify).2.1 =
        apps) ∧
    ((withdraw_application apps user_id application_id delOk).2 ≠ apps →
      ∃ a, apps.find? (fun x => x.id == application_id && x.user_id == user_id) =
          some a ∧
        a.status = "pending" ∧
        (withdraw_application apps user_id application_id delOk).2 =
          apps.filter (fun x => !(x.id == application_id && x.user_id == user_id))) ∧
    (∀ a, apps.find? (fun x => x.id == application_id && x.user_id == user_id) =
        some a →
      a.status ≠ "pending" →
      (withdraw_application apps user_id application_id delOk).2 = apps ∧
      (withdraw_application apps user_id application_id delOk).1 =
        WithdrawResult.notPending) ∧
    (apps.find? (fun x => x.id == application_id && x.user_id == user_id) =
        Option.none →
      (withdraw_application apps user_id application_id delOk).2 = apps ∧
      (withdraw_application apps user_id application_id delOk).1 =
        WithdrawResult.notFound) := by
  refine ⟨?_, ?_, ?_, ?_, ?_⟩
  · rcases hopp : opps.find? (fun x => x.id == id) with _ | o
    · left; simp [apply, hopp]
    · rcases hdup : apps.find? (fun a => a.user_id == user_id && a.opportunity_id == id)
          with _ | a0
      · cases formValid with
        | false => left; simp [apply, hopp, hdup]
        | true =>
            cases insertOk with
            | false => left; simp [apply, hopp, hdup]
            | true => right; simp [apply, hopp, hdup]
      · left; simp [apply, hopp, hdup]
  · intro o ho hdups
    rcases hdup : apps.find? (fun a => a.user_id == user_id && a.opportunity_id == id)
        with _ | a0
    · rw [hdup] at hdups; cases hdups
    · constructor <;> simp [apply, ho, hdup]
  · rcases hfa : apps.find? (fun x => x.id == application_id && x.user_id == user_id)
        with _ | a
    · intro hne
      exact absurd (by simp [withdraw_application, hfa]) hne
    · cases hstp : (a.status != "pending") with
      | true =>
          intro hne
          exact absurd (by simp [withdraw_application, hfa, hstp]) hne
      | false =>
          cases delOk with
          | false =>
              intro hne
              exact absurd (by simp [withdraw_application, hfa, hstp]) hne
          | true =>
              intro _
              exact ⟨a, hfa, by simpa using hstp,
                by simp [withdraw_application, hfa, hstp]⟩
  · intro a ha hnp
    have hstp : (a.status != "pending") = true := by simpa using hnp
    constructor <;> simp [withdraw_application, ha, hstp]
  · intro hnone
    constructor <;> simp [withdraw_application, hnone]

/-- C7 witness: a duplicate application refused, a pending application
withdrawn by its owner, a non-pending application refused, and an unknown
id refused, all instantiate the guard theorem. -/
theorem applications_pending_guard_witness :
    (((apply [⟨1, "Job"⟩] [⟨2, 7, 1, "r.pdf", "pending"⟩] [] 7 1 true "s.pdf" 9 true
        (.ok 4)).1 = ApplyResult.alreadyApplied ∧
      (apply [⟨1, "Job"⟩] [⟨2, 7, 1, "r.pdf", "pending"⟩] [] 7 1 true "s.pdf" 9 true
        (.ok 4)).2.1 = [⟨2, 7, 1, "r.pdf", "pending"⟩]) ∧
     ∃ a, ([⟨2, 7, 1, "r.pdf", "pending"⟩] : List Application).find?
          (fun x => x.id == 2 && x.user_id == 7) = some a ∧
        a.status = "pending" ∧
        (withdraw_application [⟨2, 7, 1, "r.pdf", "pending"⟩] 7 2 true).2 =
          ([⟨2, 7, 1, "r.pdf", "pending"⟩] : List Application).filter
            (fun x => !(x.id == 2 && x.user_id == 7))) ∧
    ((withdraw_application [⟨2, 7, 1, "r.pdf", "reviewed"⟩] 7 2 true).2 =
        [⟨2, 7, 1, "r.pdf", "reviewed"⟩] ∧
      (withdraw_application [⟨2, 7, 1, "r.pdf", "reviewed"⟩] 7 2 true).1 =
        WithdrawResult.notPending) ∧
    ((withdraw_application [] 7 2 true).2 = [] ∧
      (withdraw_application [] 7 2 true).1 = WithdrawResult.notFound) := by
  refine ⟨⟨?_, ?_⟩, ?_, ?_⟩
  · exact (applications_pending_guard [⟨1, "Job"⟩] [⟨2, 7, 1, "r.pdf", "pending"⟩] []
      7 1 2 true "s.pdf" 9 true (.ok 4) true).2.1 ⟨1, "Job"⟩ (by decide) (by decide)
  · exact (applications_pending_guard [⟨1, "Job"⟩] [⟨2, 7, 1, "r.pdf", "pending"⟩] []
      7 1 2 true "s.pdf" 9 true (.ok 4) true).2.2.1 (by decide)
  · exact (applications_pending_guard [⟨1, "Job"⟩] [⟨2, 7, 1, "r.pdf", "reviewed"⟩] []
      7 1 2 true "s.pdf" 9 true (.ok 4) true).2.2.2.1 ⟨2, 7, 1, "r.pdf", "reviewed"⟩
      (by decide) (by decide)
  · exact (applications_pending_guard [⟨1, "Job"⟩] [] [] 7 1 2 true "s.pdf" 9 true
      (.ok 4) true).2.2.2.2 (by decide)

/-- C8: every notification `create_notification` writes is stored for the
given user with the given type tag and `is_read = FALSE`; a successful
`send_message` creates a notification of type message for the message
receiver, and accepting a connection request creates a notification of
type connection for the request's original sender. -/
theorem notifications_created_unread
    (notifs : List Notification) (nuid : Nat) (nmsg ntag : String) (rowid : Nat)
    (conns : List Connection) (st : ChatState) (user_id partner_id : Nat)
    (raw_message : String) (now : Nat) (sender_name : String)
    (cnotifs : List Notification) (ruid cid rid2 : Nat) (updOk : Bool)
    (receiver_name : String) :
    (create_notification notifs nuid nmsg ntag (some rowid) =
      (some rowid, notifs ++ [⟨nuid, nmsg, ntag, false⟩])) ∧
    (partner_id ≠ user_id → is_connected conns user_id partner_id = true →
      pyStrip raw_message ≠ "" →
      (send_message conns st user_id partner_id raw_message now true (.ok rowid)
          sender_name).1 = SendMsgResult.sent ∧
      (send_message conns st user_id partner_id raw_message now true (.ok rowid)
          sender_name).2.notifications =
        st.notifications ++
          [⟨partner_id, "New message from " ++ sender_name, "message", false⟩]) ∧
    (∀ c, conns.find? (fun x => x.id == cid) = some c → c.receiver_id = ruid →
      c.status = "pending" →
      (respond_request conns cnotifs ruid cid "accept" updOk (.ok rid2)
          receiver_name).1 = RespondResult.accepted ∧
      (respond_request conns cnotifs ruid cid "accept" updOk (.ok rid2)
          receiver_name).2.2 =
        cnotifs ++
          [⟨c.sender_id, receiver_name ++ " accepted your connection request",
            "connection", false⟩]) := by
  refine ⟨rfl, ?_, ?_⟩
  · intro hpu hic ht
    have hpu2 : (partner_id == user_id) = false := by simpa using hpu
    have ht2 : (pyStrip raw_message == "") = false := by simpa using ht
    constructor <;>
      simp [send_message, hpu2, hic, ht2, run_create_notification, create_notification]
  · intro c hfind hrcv hst
    have hact : (("accept" : String) != "accept" && ("accept" : String) != "reject") =
        false := by decide
    have hacc : (("accept" : String) == "accept") = true := by decide
    have hrcv2 : (c.receiver_id != ruid) = false := by simp [hrcv]
    have hst2 : (c.status != "pending") = false := by simp [hst]
    constructor <;>
      simp [respond_request, hact, hacc, hfind, hrcv2, hst2, run_create_notification,
        create_notification]

/-- C8 witness: a concrete sent message notifying the receiver with a
message-type unread notification, and a concrete accepted request
notifying the original sender with a connection-type unread
notification. -/
theorem notifications_created_unread_witness :
    (2 ≠ 1 ∧ is_connected [⟨1, 1, 2, "accepted"⟩] 1 2 = true ∧ pyStrip "yo" ≠ "" ∧
      (send_message [⟨1, 1, 2, "accepted"⟩] ⟨[], []⟩ 1 2 "yo" 4 true (.ok 8)
          "Al").1 = SendMsgResult.sent ∧
      (send_message [⟨1, 1, 2, "accepted"⟩] ⟨[], []⟩ 1 2 "yo" 4 true (.ok 8)
          "Al").2.notifications =
        [] ++ [⟨2, "New message from " ++ "Al", "message", false⟩]) ∧
    ((respond_request [⟨3, 4, 5, "pending"⟩] [] 5 3 "accept" true (.ok 2)
        "Bea").1 = RespondResult.accepted ∧
      (respond_request [⟨3, 4, 5, "pending"⟩] [] 5 3 "accept" true (.ok 2)
        "Bea").2.2 =
        [] ++ [⟨4, "Bea" ++ " accepted your connection request", "connection",
          false⟩]) := by
  constructor
  · refine ⟨by decide, by decide, by decide, ?_⟩
    exact (notifications_created_unread [] 0 "" "" 8 [⟨1, 1, 2, "accepted"⟩] ⟨[], []⟩
      1 2 "yo" 4 "Al" [] 5 3 2 true "Bea").2.1 (by decide) (by decide) (by decide)
  · exact (notifications_created_unread [] 0 "" "" 8 [⟨3, 4, 5, "pending"⟩] ⟨[], []⟩
      1 2 "yo" 4 "Al" [] 5 3 2 true "Bea").2.2 ⟨3, 4, 5, "pending"⟩ (by decide) rfl rfl

/-- C9: `like_post` toggles membership of the (user, post) pair in the
likes table — when a row for the pair exists the DELETE removes it,
otherwise exactly one row is inserted — rows of other pairs are untouched,
and (given that the pair occurs at most once, the invariant the toggle
itself maintains) two consecutive `like_post` calls by the same user on
the same post leave the likes table in its original state as a multiset of
rows, which is what a SQL table is. -/
theorem like_post_toggle (likes : List Like) (user_id post_id : Nat)
    (h : (likes.filter
      (fun l => l.user_id == user_id && l.post_id == post_id)).length ≤ 1) :
    ((⟨user_id, post_id⟩ : Like) ∈ like_post likes user_id post_id true ↔
      (⟨user_id, post_id⟩ : Like) ∉ likes) ∧
    (∀ q : Like, q ≠ ⟨user_id, post_id⟩ →
      (q ∈ like_post likes user_id post_id true ↔ q ∈ likes)) ∧
    ((⟨user_id, post_id⟩ : Like) ∈ likes →
      like_post likes user_id post_id true =
        likes.filter (fun l => !(l.user_id == user_id && l.post_id == post_id))) ∧
    ((⟨user_id, post_id⟩ : Like) ∉ likes →
      like_post likes user_id post_id true = likes ++ [⟨user_id, post_id⟩]) ∧
    List.Perm (like_post (like_post likes user_id post_id true) user_id post_id true)
      likes := by
  have hpair : ∀ l : Like, (l.user_id == user_id && l.post_id == post_id) = true ↔
      l = (⟨user_id, post_id⟩ : Like) := by
    intro l; cases l; simp [Like.mk.injEq, and_comm]
  by_cases hmem : (⟨user_id, post_id⟩ : Like) ∈ likes
  · have hfs : (likes.find?
        (fun l => l.user_id == user_id && l.post_id == post_id)).isSome = true :=
      List.find?_isSome.mpr ⟨⟨user_id, post_id⟩, hmem, by simp⟩
    have h1 : like_post likes user_id post_id true =
        likes.filter (fun l => !(l.user_id == user_id && l.post_id == post_id)) := by
      simp [like_post, hfs]
    have hnone : (likes.filter
        (fun l => !(l.user_id == user_id && l.post_id == post_id))).find?
          (fun l => l.user_id == user_id && l.post_id == post_id) = Option.none := by
      apply List.find?_eq_none.mpr
      intro x hx hcon
      have hx2 := (List.mem_filter.mp hx).2
      rw [Bool.not_eq_true'] at hx2
      rw [hcon] at hx2
      simp at hx2
    have h2 : like_post (likes.filter
          (fun l => !(l.user_id == user_id && l.post_id == post_id)))
          user_id post_id true =
        likes.filter (fun l => !(l.user_id == user_id && l.post_id == post_id)) ++
          [⟨user_id, post_id⟩] := by
      unfold like_post
      rw [hnone]
      rfl
    have hfp : likes.filter (fun l => l.user_id == user_id && l.post_id == post_id) =
        [⟨user_id, post_id⟩] := by
      have hmemf : (⟨user_id, post_id⟩ : Like) ∈
          likes.filter (fun l => l.user_id == user_id && l.post_id == post_id) :=
        List.mem_filter.mpr ⟨hmem, by simp⟩
      have hlen1 : (likes.filter
          (fun l => l.user_id == user_id && l.post_id == post_id)).length = 1 :=
        le_antisymm h (List.length_pos_of_mem hmemf)
      obtain ⟨a, ha⟩ := List.length_eq_one.mp hlen1
      have hamem : a ∈ likes.filter
          (fun l => l.user_id == user_id && l.post_id == post_id) := by
        rw [ha]; exact List.mem_singleton_self a
      rw [ha, (hpair a).mp (List.mem_filter.mp hamem).2]
    have hperm0 : List.Perm
        (likes.filter (fun l => l.user_id == user_id && l.post_id == post_id) ++
          likes.filter (fun l => !(l.user_id == user_id && l.post_id == post_id)))
        likes :=
      List.filter_append_perm _ likes
    rw [hfp] at hperm0
    refine ⟨?_, ?_, fun _ => h1, fun hnm => absurd hmem hnm, ?_⟩
    · rw [h1]
      simp [List.mem_filter, hmem]
    · intro q hqne
      have hq : (q.user_id == user_id && q.post_id == post_id) = false := by
        cases hqq : (q.user_id == user_id && q.post_id == post_id) with
        | false => rfl
        | true => exact absurd ((hpair q).mp hqq) hqne
      rw [h1, List.mem_filter]
      simp [hq]
    · rw [h1, h2]
      exact (List.perm_append_comm).trans hperm0
  · have hfn : likes.find?
        (fun l => l.user_id == user_id && l.post_id == post_id) = Option.none := by
      rw [List.find?_eq_none]
      intro x hx hpx
      exact hmem (by rw [← (hpair x).mp hpx]; exact hx)
    have h1 : like_post likes user_id post_id true = likes ++ [⟨user_id, post_id⟩] := by
      simp [like_post, hfn]
    have hfs2 : (List.find? (fun l => l.user_id == user_id && l.post_id == post_id)
        (likes ++ [(⟨user_id, post_id⟩ : Like)])).isSome = true := by
      rw [List.find?_isSome]
      exact ⟨⟨user_id, post_id⟩, by simp, by simp⟩
    have hself : likes.filter
        (fun l => !(l.user_id == user_id && l.post_id == post_id)) = likes := by
      rw [List.filter_eq_self]
      intro x hx
      have hpx : (x.user_id == user_id && x.post_id == post_id) = false := by
        cases hxx : (x.user_id == user_id && x.post_id == post_id) with
        | false => rfl
        | true => exact absurd hxx (List.find?_eq_none.mp hfn x hx)
      simp [hpx]
    have h2 : like_post (likes ++ [⟨user_id, post_id⟩]) user_id post_id true = likes := by
      simp only [like_post, hfs2, if_true, List.filter_append, hself]
      simp
    refine ⟨?_, ?_, fun hm => absurd hm hmem, fun _ => h1, ?_⟩
    · rw [h1]
      simp [hmem]
    · intro q hqne
      rw [h1]
      simp [List.mem_append, hqne]
    · rw [h1, h2]

/-- C9 witness: the toggle theorem applied to a one-row likes table whose
single row is the toggled pair. -/
theorem like_post_toggle_witness :
    ((([⟨1, 2⟩] : List Like).filter
        (fun l => l.user_id == 1 && l.post_id == 2)).length ≤ 1) ∧
    (((⟨1, 2⟩ : Like) ∈ like_post [⟨1, 2⟩] 1 2 true ↔
        (⟨1, 2⟩ : Like) ∉ ([⟨1, 2⟩] : List Like)) ∧
      (∀ q : Like, q ≠ ⟨1, 2⟩ →
        (q ∈ like_post [⟨1, 2⟩] 1 2 true ↔ q ∈ ([⟨1, 2⟩] : List Like))) ∧
      ((⟨1, 2⟩ : Like) ∈ ([⟨1, 2⟩] : List Like) →
        like_post [⟨1, 2⟩] 1 2 true =
          ([⟨1, 2⟩] : List Like).filter (fun l => !(l.user_id == 1 && l.post_id == 2))) ∧
      ((⟨1, 2⟩ : Like) ∉ ([⟨1, 2⟩] : List Like) →
        like_post [⟨1, 2⟩] 1 2 true = [⟨1, 2⟩] ++ [⟨1, 2⟩]) ∧
      List.Perm (like_post (like_post [⟨1, 2⟩] 1 2 true) 1 2 true) [⟨1, 2⟩]) :=
  ⟨by decide, like_post_toggle [⟨1, 2⟩] 1 2 (by decide)⟩

/-- The flash result and messages table of `send_message` do not depend on
the notification outcome. -/
theorem send_message_notify_independent (conns : List Connection) (st : ChatState)
    (user_id partner_id : Nat) (raw_message : String) (now : Nat) (insertOk : Bool)
    (sender_name : String) (n1 n2 : NotifyOutcome) :
    (send_message conns st user_id partner_id raw_message now insertOk n1
        sender_name).1 =
      (send_message conns st user_id partner_id raw_message now insertOk n2
        sender_name).1 ∧
    (send_message conns st user_id partner_id raw_message now insertOk n1
        sender_name).2.messages =
      (send_message conns st user_id partner_id raw_message now insertOk n2
        sender_name).2.messages := by
  cases hpu : (partner_id == user_id) with
  | true => simp [send_message, hpu]
  | false =>
      cases hic : is_connected conns user_id partner_id with
      | false => simp [send_message, hpu, hic]
      | true =>
          cases ht : (pyStrip raw_message == "") with
          | true => simp [send_message, hpu, hic, ht]
          | false => cases insertOk <;> simp [send_message, hpu, hic, ht]

/-- The flash result and connections table of `send_request` do not depend
on the notification outcome. -/
theorem send_request_notify_independent (conns : List Connection)
    (notifs : List Notification) (sender_id user_id newId : Nat) (insertOk : Bool)
    (sender_name : String) (n1 n2 : NotifyOutcome) :
    (send_request conns notifs sender_id user_id newId insertOk n1 sender_name).1 =
      (send_request conns notifs sender_id user_id newId insertOk n2 sender_name).1 ∧
    (send_request conns notifs sender_id user_id newId insertOk n1 sender_name).2.1 =
      (send_request conns notifs sender_id user_id newId insertOk n2 sender_name).2.1 := by
  cases hsu : (sender_id == user_id) with
  | true => simp [send_request, hsu]
  | false =>
      rcases hex : find_existing conns sender_id user_id with _ | c
      · cases insertOk <;> simp [send_request, hsu, hex]
      · simp [send_request, hsu, hex]

/-- The flash result and registrations table of `register` do not depend on
the notification outcome. -/
theorem register_notify_independent (events : List EventRow) (regs : List EventReg)
    (notifs : List Notification) (user_id id now : Nat) (insertOk : Bool)
    (n1 n2 : NotifyOutcome) :
    (register events regs notifs user_id id now insertOk n1).1 =
      (register events regs notifs user_id id now insertOk n2).1 ∧
    (register events regs notifs user_id id now insertOk n1).2.1 =
      (register events regs notifs user_id id now insertOk n2).2.1 := by
  rcases hfind : events.find? (fun e => e.id == id) with _ | e
  · simp [register, hfind]
  · rcases hdup : regs.find? (fun r => r.user_id == user_id && r.event_id == id)
        with _ | r0
    · cases hcap : (truthyOptInt e.max_participants &&
          decide (e.max_participants.getD 0 ≤
            ((regs.filter (fun r => r.event_id == id)).length : Int))) with
      | true => simp [register, hfind, hdup, ge_iff_le, hcap]
      | false => cases insertOk <;> simp [register, hfind, hdup, ge_iff_le, hcap]
    · simp [register, hfind, hdup]

/-- C10: a failure to create a notification never changes the outcome of
the operation that triggered it: in `send_message`, `send_request` and
event `register` the flash result and the primary table are identical for
every notification outcome, and when the guards pass and the primary
insert succeeds, the success path is taken — success result, inserted row
kept — whether `create_notification` succeeds, returns None, or raises. -/
theorem notification_failure_isolated
    (conns : List Connection) (st : ChatState) (user_id partner_id : Nat)
    (raw_message : String) (now : Nat) (insertOk : Bool) (sender_name : String)
    (rconns : List Connection) (rnotifs : List Notification)
    (sender_id ruser_id newId : Nat)
    (events : List EventRow) (regs : List EventReg) (enotifs : List Notification)
    (euser_id eid enow : Nat) (n1 n2 : NotifyOutcome) :
    ((send_message conns st user_id partner_id raw_message now insertOk n1
        sender_name).1 =
      (send_message conns st user_id partner_id raw_message now insertOk n2
        sender_name).1 ∧
      (send_message conns st user_id partner_id raw_message now insertOk n1
        sender_name).2.messages =
      (send_message conns st user_id partner_id raw_message now insertOk n2
        sender_name).2.messages) ∧
    (partner_id ≠ user_id → is_connected conns user_id partner_id = true →
      pyStrip raw_message ≠ "" →
      (send_message conns st user_id partner_id raw_message now true n1
          sender_name).1 = SendMsgResult.sent ∧
      (send_message conns st user_id partner_id raw_message now true n1
          sender_name).2.messages =
        st.messages ++ [⟨user_id, partner_id, pyStrip raw_message, now⟩]) ∧
    ((send_request rconns rnotifs sender_id ruser_id newId insertOk n1
        sender_name).1 =
      (send_request rconns rnotifs sender_id ruser_id newId insertOk n2
        sender_name).1 ∧
      (send_request rconns rnotifs sender_id ruser_id newId insertOk n1
        sender_name).2.1 =
      (send_request rconns rnotifs sender_id ruser_id newId insertOk n2
        sender_name).2.1) ∧
    (sender_id ≠ ruser_id → find_existing rconns sender_id ruser_id = Option.none →
      (send_request rconns rnotifs sender_id ruser_id newId true n1
          sender_name).1 = SendReqResult.sent ∧
      (send_request rconns rnotifs sender_id ruser_id newId true n1
          sender_name).2.1 = rconns ++ [⟨newId, sender_id, ruser_id, "pending"⟩]) ∧
    ((register events regs enotifs euser_id eid enow insertOk n1).1 =
      (register events regs enotifs euser_id eid enow insertOk n2).1 ∧
      (register events regs enotifs euser_id eid enow insertOk n1).2.1 =
      (register events regs enotifs euser_id eid enow insertOk n2).2.1) ∧
    (∀ e, events.find? (fun x => x.id == eid) = some e →
      regs.find? (fun r => r.user_id == euser_id && r.event_id == eid) =
        Option.none →
      (truthyOptInt e.max_participants &&
        decide (e.max_participants.getD 0 ≤
          ((regs.filter (fun r => r.event_id == eid)).length : Int))) = false →
      (register events regs enotifs euser_id eid enow true n1).1 =
          RegisterResult.registered ∧
      (register events regs enotifs euser_id eid enow true n1).2.1 =
        regs ++ [⟨euser_id, eid, enow⟩]) := by
  refine ⟨send_message_notify_independent conns st user_id partner_id raw_message now
      insertOk sender_name n1 n2, ?_,
    send_request_notify_independent rconns rnotifs sender_id ruser_id newId insertOk
      sender_name n1 n2, ?_,
    register_notify_independent events regs enotifs euser_id eid enow insertOk n1 n2,
    ?_⟩
  · intro hpu hic ht
    have hpu2 : (partner_id == user_id) = false := by simpa using hpu
    have ht2 : (pyStrip raw_message == "") = false := by simpa using ht
    constructor <;> simp [send_message, hpu2, hic, ht2]
  · intro hsu hex
    have hsu2 : (sender_id == ruser_id) = false := by simpa using hsu
    constructor <;> simp [send_request, hsu2, hex]
  · intro e hfind hdup hcap
    constructor <;> simp [register, hfind, hdup, ge_iff_le, hcap]

/-- C10 witness: a concrete successful message, connection request and
event registration each keep their success outcome and inserted row while
the notification attempt raises. -/
theorem notification_failure_isolated_witness :
    (2 ≠ 1 ∧ is_connected [⟨1, 1, 2, "accepted"⟩] 1 2 = true ∧ pyStrip "hey" ≠ "" ∧
      (send_message [⟨1, 1, 2, "accepted"⟩] ⟨[], []⟩ 1 2 "hey" 6 true
          NotifyOutcome.raised "Al").1 = SendMsgResult.sent ∧
      (send_message [⟨1, 1, 2, "accepted"⟩] ⟨[], []⟩ 1 2 "hey" 6 true
          NotifyOutcome.raised "Al").2.messages =
        [] ++ [⟨1, 2, pyStrip "hey", 6⟩]) ∧
    (3 ≠ 4 ∧ find_existing [] 3 4 = Option.none ∧
      (send_request [] [] 3 4 7 true NotifyOutcome.raised "Al").1 =
        SendReqResult.sent ∧
      (send_request [] [] 3 4 7 true NotifyOutcome.raised "Al").2.1 =
        [] ++ [⟨7, 3, 4, "pending"⟩]) ∧
    ((register [⟨1, "W", some 2⟩] [] [] 5 1 6 true NotifyOutcome.raised).1 =
        RegisterResult.registered ∧
      (register [⟨1, "W", some 2⟩] [] [] 5 1 6 true NotifyOutcome.raised).2.1 =
        [] ++ [⟨5, 1, 6⟩]) := by
  refine ⟨⟨by decide, by decide, by decide, ?_⟩, ⟨by decide, by decide, ?_⟩, ?_⟩
  · exact (notification_failure_isolated [⟨1, 1, 2, "accepted"⟩] ⟨[], []⟩ 1 2 "hey" 6
      true "Al" [] [] 3 4 7 [⟨1, "W", some 2⟩] [] [] 5 1 6 NotifyOutcome.raised
      NotifyOutcome.failed).2.1 (by decide) (by decide) (by decide)
  · exact (notification_failure_isolated [⟨1, 1, 2, "accepted"⟩] ⟨[], []⟩ 1 2 "hey" 6
      true "Al" [] [] 3 4 7 [⟨1, "W", some 2⟩] [] [] 5 1 6 NotifyOutcome.raised
      NotifyOutcome.failed).2.2.2.1 (by decide) (by decide)
  · exact (notification_failure_isolated [⟨1, 1, 2, "accepted"⟩] ⟨[], []⟩ 1 2 "hey" 6
      true "Al" [] [] 3 4 7 [⟨1, "W", some 2⟩] [] [] 5 1 6 NotifyOutcome.raised
      NotifyOutcome.failed).2.2.2.2.2 ⟨1, "W", some 2⟩ (by decide) (by decide)
      (by decide)

end SkillentHub
